import Mathlib

/-
  Shallow embedding of the Telegram media-downloader bot (src/Main_code.py).

  Modelling conventions:
  * File sizes are tracked in bytes (Nat).  The source compares float
    megabyte values obtained as bytes / (1024*1024); since division by a
    power of two is exact in IEEE-754 doubles for realistic sizes, the
    comparison `size_mb > L` is exactly `bytes > L * 1024 * 1024`, which is
    how all threshold tests are embedded.
  * The filesystem is a finite association list of (path, size-in-bytes);
    os.path.exists / os.remove / os.path.getsize are embedded over it, with
    os.remove raising when the path is absent, as in Python.
  * The yt-dlp engine and the Telegram transport are external collaborators;
    their behaviour on a given request is an input (EngineBehavior for the
    two extract_info calls, a Bool for whether the transport send succeeds).
    A raised exception is an `Except.error` carrying str(e).
  * The two regex steps of handle_message (re.findall for URLs and
    MediaDownloader.is_valid_url) are likewise represented by their boolean
    outcomes in the input, since no claim concerns the regexes themselves.
  * Handlers return the ordered list of externally visible effects they
    perform, the updated per-conversation state and filesystem, and an
    outcome; an uncaught Python exception is an `Except.error`.
-/

set_option linter.unusedVariables false

namespace SarzBot

/-- `REGULAR_USER_LIMIT_MB = 50` from the source. -/
def REGULAR_USER_LIMIT_MB : Nat := 50

/-- `PREMIUM_USER_LIMIT_MB = 2048` from the source. -/
def PREMIUM_USER_LIMIT_MB : Nat := 2048

/-- One megabyte in bytes. -/
def MB : Nat := 1024 * 1024

/- ### Python string primitives, embedded structurally over char lists -/

/-- Python `str.split(sep)` for a one-character separator, accumulator pass. -/
def pySplitAux (sep : Char) : List Char → List Char → List String
  | [], acc => [String.mk acc.reverse]
  | c :: rest, acc =>
      if c = sep then String.mk acc.reverse :: pySplitAux sep rest []
      else pySplitAux sep rest (c :: acc)

/-- Python `str.split(sep)`: the empty string yields a single empty entry. -/
def pySplit (s : String) (sep : Char) : List String := pySplitAux sep s.data []

/-- Whether the second char list is an initial segment of the first. -/
def charsStartWith : List Char → List Char → Bool
  | _, [] => true
  | [], _ :: _ => false
  | c :: cs, p :: ps => (c = p) && charsStartWith cs ps

/-- Python `str.startswith`. -/
def pyStartsWith (s pre : String) : Bool := charsStartWith s.data pre.data

/-- Python `str.replace` (all non-overlapping occurrences, left to right),
with the char-list length as structural fuel; a non-empty pattern consumes
at least one character per step so the fuel never runs out. -/
def pyReplaceFuel (pat repl : List Char) : Nat → List Char → List Char
  | _, [] => []
  | 0, l => l
  | fuel + 1, c :: rest =>
      if charsStartWith (c :: rest) pat && !pat.isEmpty then
        repl ++ pyReplaceFuel pat repl fuel ((c :: rest).drop pat.length)
      else c :: pyReplaceFuel pat repl fuel rest

/-- Python `str.replace` for the non-empty patterns the source uses. -/
def pyReplace (s pat repl : String) : String :=
  String.mk (pyReplaceFuel pat.data repl.data s.data.length s.data)

/-- `ALLOWED_USERS = os.getenv(..., '').split(',')`: Python str.split on a
comma never yields an empty list; the empty string yields a single empty
entry. -/
def ALLOWED_USERS (env : String) : List String := pySplit env ','

/-- The guard `if ALLOWED_USERS and ALLOWED_USERS[0]:` followed by
`user_id not in ALLOWED_USERS`: the handler rejects when the parsed list is
non-empty (always true for split), its first entry is a non-empty string,
and the sender is absent from the list. -/
def authRejected (env sender : String) : Bool :=
  !(ALLOWED_USERS env).isEmpty && (ALLOWED_USERS env).headD "" != ""
    && !(ALLOWED_USERS env).contains sender

/- ## Filesystem model -/

/-- The scratch filesystem: existing paths with their sizes in bytes. -/
abbrev FS := List (String × Nat)

/-- `os.path.exists`. -/
def fsExists (fs : FS) (p : String) : Bool := fs.any (fun e => e.1 == p)

/-- Remove every entry at path `p`. -/
def fsErase (fs : FS) (p : String) : FS := fs.filter (fun e => !(e.1 == p))

/-- `os.path.getsize` (0 when absent; in the modelled flows the path exists). -/
def fsGetsize (fs : FS) (p : String) : Nat :=
  ((fs.find? (fun e => e.1 == p)).map (fun e => e.2)).getD 0

/-- The engine writing the downloaded file to disk (overwriting any prior
file of the same name, as yt-dlp does for a repeated title). -/
def fsPut (fs : FS) (p : String) (n : Nat) : FS := (p, n) :: fsErase fs p

/-- `os.remove`: raises FileNotFoundError when the path is absent. -/
def os_remove (fs : FS) (p : String) : Except String FS :=
  if fsExists fs p then Except.ok (fsErase fs p)
  else Except.error "FileNotFoundError"

/-- The guarded cleanup statement used throughout the source:
`if os.path.exists(filepath): os.remove(filepath)`. -/
def cleanup_step (fs : FS) (p : String) : Except String FS :=
  if fsExists fs p then os_remove fs p else Except.ok fs

/- ## Download orchestrator (MediaDownloader.download_media) -/

/-- The metadata dictionary returned by `extract_info(url, download=False)`;
only the fields the source reads.  `filesize` is `info.get('filesize')`
(absent → none) and `filesize_approx` is `info.get('filesize_approx', 0)`. -/
structure ProbeInfo where
  filesize : Option Nat
  filesize_approx : Nat
  deriving Repr, DecidableEq

/-- `info.get('filesize') or info.get('filesize_approx', 0)`: Python `or`
treats both None and 0 as falsy. -/
def effFilesize (i : ProbeInfo) : Nat :=
  match i.filesize with
  | some n => if n = 0 then i.filesize_approx else n
  | none => i.filesize_approx

/-- The result of `extract_info(url, download=True)` together with the size
in bytes of the file the engine wrote to disk. -/
structure DlInfo where
  preparedFilename : String
  title : String
  uploader : String
  duration : Nat
  description : String
  fileBytes : Nat
  deriving Repr, DecidableEq

/-- Decidable equality for exception-carrying results. -/
instance {ε α : Type} [DecidableEq ε] [DecidableEq α] : DecidableEq (Except ε α)
  | .error a, .error b =>
      if h : a = b then isTrue (h ▸ rfl)
      else isFalse (fun hh => h (Except.error.inj hh))
  | .error _, .ok _ => isFalse (fun h => Except.noConfusion h)
  | .ok _, .error _ => isFalse (fun h => Except.noConfusion h)
  | .ok a, .ok b =>
      if h : a = b then isTrue (h ▸ rfl)
      else isFalse (fun hh => h (Except.ok.inj hh))

/-- The engine behaviour for one request: what each of the two
`extract_info` calls does (`Except.error` = the engine raises). -/
structure EngineBehavior where
  probe : Except String ProbeInfo
  download : Except String DlInfo
  deriving Repr, DecidableEq

/-- Video `format` expression per quality tier (get_yt_dlp_options). -/
def video_format_string (quality : String) : String :=
  if quality = "best" then
    "bestvideo[ext=mp4]+bestaudio[ext=m4a]/best[ext=mp4]/best"
  else if quality = "1080p" then
    "bestvideo[height<=1080][ext=mp4]+bestaudio[ext=m4a]/best[height<=1080][ext=mp4]/best"
  else if quality = "720p" then
    "bestvideo[height<=720][ext=mp4]+bestaudio[ext=m4a]/best[height<=720][ext=mp4]/best"
  else if quality = "480p" then
    "bestvideo[height<=480][ext=mp4]+bestaudio[ext=m4a]/best[height<=480][ext=mp4]/best"
  else "best[ext=mp4]/best"

/-- Join with a dot separator. -/
def joinDot : List String → String
  | [] => ""
  | [s] => s
  | s :: rest => s ++ "." ++ joinDot rest

/-- Python `s.rsplit('.', 1)[0]`: everything before the last dot, or the
whole string when there is no dot. -/
def rsplitBase (s : String) : String :=
  let parts := pySplit s '.'
  if parts.length ≤ 1 then s else joinDot parts.dropLast

/-- `ydl.prepare_filename(info)`, with the `.mp3` rewrite for audio mode. -/
def finalFilename (media_type : String) (di : DlInfo) : String :=
  if media_type = "audio" then rsplitBase di.preparedFilename ++ ".mp3"
  else di.preparedFilename

/-- Python 1-decimal formatting of bytes/2^20 (the source formats an exact
binary float; rounding of exact .05 ties is approximated as round-half-up,
which no claim depends on). -/
def formatMB1 (bytes : Nat) : String :=
  let tenths := (bytes * 10 + MB / 2) / MB
  toString (tenths / 10) ++ "." ++ toString (tenths % 10)

/-- The size-rejection error string of download_media. -/
def sizeErrorMsg (bytes maxMB : Nat) : String :=
  "File size (" ++ formatMB1 bytes ++ "MB) exceeds maximum limit ("
    ++ toString maxMB ++ "MB)"

/-- The dictionary download_media returns.  `filesize_mb` mirrors
`info.get('estimated_filesize_mb', 0)` — read from the rebound info of the
second extract_info call, on which the key was never set, hence 0. -/
structure DMOutcome where
  success : Bool
  error : Option String := none
  filepath : Option String := none
  title : String := "Unknown"
  uploader : String := "Unknown"
  duration : Nat := 0
  description : String := ""
  filesize_mb : Nat := 0
  deriving Repr, DecidableEq

/-- A run of download_media: the returned dictionary, whether the
`download=True` engine step was invoked, and on success the path and size of
the file now on disk. -/
inductive DMRun where
  | failed (outcome : DMOutcome) (invoked : Bool)
  | succeeded (outcome : DMOutcome) (filepath : String) (fileBytes : Nat)
  deriving Repr, DecidableEq

/-- The returned dictionary of a run. -/
def DMRun.outcome : DMRun → DMOutcome
  | .failed o _ => o
  | .succeeded o _ _ => o

/-- Whether the engine download step was invoked during the run. -/
def DMRun.invoked : DMRun → Bool
  | .failed _ b => b
  | .succeeded _ _ _ => true

/-- The success dictionary built from the second extract_info result. -/
def dmSuccess (media_type : String) (di : DlInfo) : DMOutcome :=
  { success := true
    filepath := some (finalFilename media_type di)
    title := di.title
    uploader := di.uploader
    duration := di.duration
    description := di.description.take 200 }

/-- `MediaDownloader.download_media`: probe, pre-flight size check against
`MAX_FILE_SIZE_MB`, then download; every engine exception is caught and
returned as a success=false dictionary carrying str(e) — the function is
total and never propagates. -/
def download_media (maxFileSizeMB : Nat) (media_type : String)
    (eng : EngineBehavior) : DMRun :=
  match eng.probe with
  | .error e => .failed { success := false, error := some e } false
  | .ok info =>
      let filesize := effFilesize info
      if filesize > maxFileSizeMB * MB then
        .failed { success := false
                  error := some (sizeErrorMsg filesize maxFileSizeMB) } false
      else
        match eng.download with
        | .error e => .failed { success := false, error := some e } true
        | .ok di => .succeeded (dmSuccess media_type di)
            (finalFilename media_type di) di.fileBytes

/- ## Conversation state (context.user_data) -/

/-- `context.user_data['pending_file']`: the record stored when a large file
awaits the premium confirmation. -/
structure PendingFile where
  filepath : String
  file_size_bytes : Nat
  result : DMOutcome
  media_type : String
  deriving Repr, DecidableEq

/-- The per-conversation mutable bag `context.user_data`; `none` = key
absent. -/
structure ConvState where
  quality : Option String := none
  media_type : Option String := none
  has_premium : Option Bool := none
  pending_file : Option PendingFile := none
  deriving Repr, DecidableEq

/- ## Externally visible effects -/

/-- One externally visible action of a handler, in program order. -/
inductive Effect where
  | replyText (msg : String)
  | statusMsg (msg : String)
  | chatAction (action : String)
  | editStatus (msg : String)
  | premiumPrompt (msg yesData noData : String)
  | sendMedia (filepath media_type caption : String)
  | deleteStatus
  | answerQuery
  | cleanupAttempt (filepath : String)
  | logRemoveError (msg : String)
  deriving Repr, DecidableEq

/-- `callback_data=f"premium_yes|..."` built for the I-have-Premium button
in handle_message. -/
def premiumYesPayload (url quality media_type : String) : String :=
  "premium_yes|" ++ url ++ "|" ++ quality ++ "|" ++ media_type

/-- `mm:ss` zero padding of the seconds field. -/
def two0 (n : Nat) : String := if n < 10 then "0" ++ toString n else toString n

/-- The caption built by send_media_file (title, uploader, duration as
mm:ss, size with one decimal), truncated to the 1024-character caption
limit. -/
def buildCaption (result : DMOutcome) (bytes : Nat) : String :=
  (result.title ++ " - " ++ result.uploader ++ " - Duration: "
    ++ toString (result.duration / 60) ++ ":" ++ two0 (result.duration % 60)
    ++ " - Size: " ++ formatMB1 bytes ++ "MB").take 1024

/-- `send_media_file`: opens the file (raising when absent), performs the
transport send (`sendOk` = whether the transport call succeeds), then
best-effort deletes the status message.  Returns the effects performed and,
when a step raised, str(e); the send attempt itself is always visible as a
`sendMedia` effect once the file was opened. -/
def send_media_file (fs : FS) (sendOk : Bool) (filepath : String)
    (bytes : Nat) (result : DMOutcome) (media_type : String) :
    List Effect × Option String :=
  if !fsExists fs filepath then ([], some "FileNotFoundError")
  else
    let caption := buildCaption result bytes
    if sendOk then
      ([Effect.sendMedia filepath media_type caption, Effect.deleteStatus], none)
    else
      ([Effect.sendMedia filepath media_type caption], some "Timed out")

/-- The cleanup block at the end of handle_message:
`try: if exists: remove  except: logger.error(...)` — total, an OS failure
is logged and swallowed, never re-raised. -/
def cleanup_handle (fs : FS) (p : String) : FS × List Effect :=
  match cleanup_step fs p with
  | .ok fs2 => (fs2, [Effect.cleanupAttempt p])
  | .error e =>
      (fs, [Effect.cleanupAttempt p,
            Effect.logRemoveError ("Error removing file: " ++ e)])

/- ## handle_message -/

/-- The initial status message of handle_message. -/
def msgProcessing (media_type url quality : String) : String :=
  "Processing your " ++ media_type ++ " - URL: " ++ url.take 50
    ++ " - Quality: " ++ quality

/-- The post-premium-ceiling rejection text. -/
def msgTooLarge (file_size : Nat) : String :=
  "File Too Large - File size: " ++ formatMB1 file_size ++ "MB - Maximum limit: "
    ++ toString PREMIUM_USER_LIMIT_MB ++ "MB (Telegram Premium)"

/-- The two-button premium confirmation text. -/
def msgLargeFile (file_size : Nat) : String :=
  "Large File Detected - File size: " ++ formatMB1 file_size
    ++ "MB - This file requires Telegram Premium to receive. Do you have Telegram Premium?"

/-- The generic apology the outer except handler edits in. -/
def msgErrorOccurred (e : String) : String :=
  "Error occurred - Details: " ++ e.take 200 ++ " - Please try again or use /help"

/-- Outcome of one handle_message run. -/
inductive HMOutcome where
  | unauthorized
  | noUrl
  | invalidUrl
  | downloadFailed
  | tooLarge
  | delivered
  | pendingStored
  | errorCaught (e : String)
  deriving Repr, DecidableEq

/-- Everything outside the handler that determines one run: configuration,
sender, the boolean outcomes of the two URL regex steps, the engine
behaviour and the transport behaviour. -/
structure HMInput where
  allowedUsersEnv : String
  senderId : String
  urlFound : Bool
  url : String
  urlValid : Bool
  maxFileSizeMB : Nat
  engine : EngineBehavior
  sendOk : Bool
  deriving Repr, DecidableEq

/-- Result of the guarded size branch of handle_message: fall through to
the shared cleanup, return early (pending stored), or raise into the outer
except. -/
inductive BranchRes where
  | cont (out : HMOutcome) (es : List Effect)
  | earlyReturn (out : HMOutcome) (st2 : ConvState) (es : List Effect)
  | raised (e : String) (es : List Effect)

/-- The size-tier branch of handle_message: the if/elif/else over the
measured size, including the two transport-send call sites. -/
def sizeBranch (sendOk : Bool) (st : ConvState) (url quality media_type : String)
    (fs1 : FS) (fp : String) (file_size : Nat) (result : DMOutcome) : BranchRes :=
  if file_size > PREMIUM_USER_LIMIT_MB * MB then
    .cont .tooLarge [.editStatus (msgTooLarge file_size)]
  else if file_size > REGULAR_USER_LIMIT_MB * MB then
    if st.has_premium.getD false then
      match send_media_file fs1 sendOk fp file_size result media_type with
      | (es, none) => .cont .delivered es
      | (es, some e) => .raised e es
    else
      let pending : PendingFile :=
        { filepath := fp, file_size_bytes := file_size,
          result := result, media_type := media_type }
      .earlyReturn .pendingStored { st with pending_file := some pending }
        [.premiumPrompt (msgLargeFile file_size)
            (premiumYesPayload url quality media_type) "premium_no"]
  else
    match send_media_file fs1 sendOk fp file_size result media_type with
    | (es, none) => .cont .delivered es
    | (es, some e) => .raised e es

/-- Reassembly of a branch result: fall-through runs the shared trailing
cleanup; an early return skips it; a raise lands in the outer
`except Exception` which edits the status message with the error. -/
def assembleBranch (st : ConvState) (fs1 : FS) (fp : String)
    (eff1 : List Effect) : BranchRes → HMOutcome × ConvState × FS × List Effect
  | .cont out es =>
      let (fs2, cleanEs) := cleanup_handle fs1 fp
      (out, st, fs2, eff1 ++ es ++ cleanEs)
  | .earlyReturn out st2 es => (out, st2, fs1, eff1 ++ es)
  | .raised e es =>
      (.errorCaught e, st, fs1, eff1 ++ es ++ [.editStatus (msgErrorOccurred e)])

/-- `handle_message`: allow-list gate, URL extraction/validation, download,
then the size-tier branch, the shared cleanup, and the outer
`except Exception` that edits the status message with the error. -/
def handle_message (inp : HMInput) (st : ConvState) (fs : FS) :
    HMOutcome × ConvState × FS × List Effect :=
  if authRejected inp.allowedUsersEnv inp.senderId then
    (.unauthorized, st, fs,
      [.replyText "You are not authorized to use this bot."])
  else if !inp.urlFound then
    (.noUrl, st, fs,
      [.replyText "No valid URL found. Please send a valid link. Use /help for more information."])
  else
    let quality := st.quality.getD "best"
    let media_type := st.media_type.getD "video"
    if !inp.urlValid then
      (.invalidUrl, st, fs, [.replyText "Invalid URL format!"])
    else
      let user_has_premium := st.has_premium.getD false
      let eff0 : List Effect :=
        [.statusMsg (msgProcessing media_type inp.url quality),
         .chatAction (if media_type = "video" then "UPLOAD_VIDEO" else "UPLOAD_AUDIO")]
      match download_media inp.maxFileSizeMB media_type inp.engine with
      | .failed o _ =>
          (.downloadFailed, st, fs,
            eff0 ++ [.editStatus ("Download Failed - Error: " ++ o.error.getD ""
              ++ " - Try a different quality or check if the video is accessible.")])
      | .succeeded result fp bytes =>
          let fs1 := fsPut fs fp bytes
          let file_size := fsGetsize fs1 fp
          let eff1 := eff0 ++ [.editStatus "Download complete! Uploading to Telegram..."]
          assembleBranch st fs1 fp eff1
            (sizeBranch inp.sendOk st inp.url quality media_type fs1 fp file_size result)

/- ## button_callback -/

/-- `button_callback`: answers the query, then dispatches on the payload.
The sender and allow-list are available (as in every handler) but never
consulted.  An uncaught Python exception is an `Except.error`; in the
`premium_no` branch with no pending record the message f-string subscripts
None and raises before anything beyond the query answer happens. -/
def button_callback (env sender : String) (sendOk : Bool) (data : String)
    (st : ConvState) (fs : FS) :
    Except String (ConvState × FS × List Effect) :=
  let effs0 : List Effect := [.answerQuery]
  if pyStartsWith data "quality_" then
    let quality := pyReplace data "quality_" ""
    Except.ok ({ st with quality := some quality }, fs,
      effs0 ++ [.editStatus ("Quality set to: " ++ quality ++ " - Now send me a video link!")])
  else if pyStartsWith data "premium_" then
    if data = "premium_yes" then
      let st1 := { st with has_premium := some true }
      match st1.pending_file with
      | some pending =>
          let effs1 := effs0 ++ [Effect.editStatus "Uploading your file..."]
          match send_media_file fs sendOk pending.filepath
              pending.file_size_bytes pending.result pending.media_type with
          | (es, none) =>
              let fs1 := if fsExists fs pending.filepath
                then fsErase fs pending.filepath else fs
              Except.ok ({ st1 with pending_file := none }, fs1, effs1 ++ es)
          | (es, some e) =>
              Except.ok (st1, fs,
                effs1 ++ es ++ [.replyText ("Upload failed: " ++ e)])
      | none =>
          Except.ok (st1, fs,
            effs0 ++ [.editStatus "File expired. Please try downloading again."])
    else if data = "premium_no" then
      match st.pending_file with
      | none => Except.error "TypeError: NoneType object is not subscriptable"
      | some pending =>
          let effs1 := effs0 ++
            [Effect.editStatus ("Telegram Premium Required - File size: "
              ++ formatMB1 pending.file_size_bytes ++ "MB - Regular limit: "
              ++ toString REGULAR_USER_LIMIT_MB ++ "MB - Options: upgrade, lower quality, or audio-only")]
          let fs1 := if fsExists fs pending.filepath
            then fsErase fs pending.filepath else fs
          Except.ok ({ st with pending_file := none }, fs1, effs1)
    else Except.ok (st, fs, effs0)
  else Except.ok (st, fs, effs0)

/- ## Command handlers -/

/-- `/start`: replies with the welcome message; sender and allow-list are
in scope but unused. -/
def start_command (env sender : String) (st : ConvState) :
    ConvState × List Effect :=
  (st, [.replyText "Welcome to Media Downloader Bot! Just send me a link and I will download it for you!"])

/-- `/help`: replies with the help text. -/
def help_command (env sender : String) (st : ConvState) :
    ConvState × List Effect :=
  (st, [.replyText "Help and Instructions - send any video URL, choose quality, wait, receive the file."])

/-- `/quality`: shows the four-button quality picker. -/
def quality_command (env sender : String) (st : ConvState) :
    ConvState × List Effect :=
  (st, [.replyText "Select Video Quality: quality_best quality_1080p quality_720p quality_480p"])

/-- `/audio`: sets audio mode. -/
def audio_command (env sender : String) (st : ConvState) :
    ConvState × List Effect :=
  ({ st with media_type := some "audio" },
   [.replyText "Audio mode enabled! Send me a link to extract audio (MP3 320kbps)"])

/-- `/video`: sets video mode and echoes the current quality. -/
def video_command (env sender : String) (st : ConvState) :
    ConvState × List Effect :=
  ({ st with media_type := some "video" },
   [.replyText ("Video mode enabled! Current quality: " ++ st.quality.getD "best")])

/- ## Helper lemmas -/

lemma pySplitAux_ne_nil (sep : Char) (l acc : List Char) :
    pySplitAux sep l acc ≠ [] := by
  induction l generalizing acc with
  | nil => simp [pySplitAux]
  | cons c rest ih =>
      by_cases h : c = sep <;> simp [pySplitAux, h] <;> exact ih _

lemma ALLOWED_USERS_ne_nil (env : String) : ALLOWED_USERS env ≠ [] :=
  pySplitAux_ne_nil ',' env.data []

lemma fsExists_fsErase (fs : FS) (p : String) :
    fsExists (fsErase fs p) p = false := by
  induction fs with
  | nil => rfl
  | cons e t ih =>
      by_cases he : (e.1 == p) = true
      · simpa [fsErase, fsExists, List.filter_cons, he] using ih
      · simp only [Bool.not_eq_true] at he
        simpa [fsErase, fsExists, List.filter_cons, he] using ih

lemma fsExists_fsErase_ne (fs : FS) (p q : String) (h : p ≠ q) :
    fsExists (fsErase fs q) p = fsExists fs p := by
  induction fs with
  | nil => rfl
  | cons e t ih =>
      unfold fsExists fsErase at ih ⊢
      rw [List.filter_cons]
      by_cases he : e.1 = q
      · have hep : (e.1 == p) = false := by
          rw [beq_eq_false_iff_ne]; exact fun hx => h (hx.symm.trans he)
        have hne : (!(e.1 == q)) = false := by
          rw [beq_iff_eq.mpr he]; rfl
        rw [hne]
        simp only [Bool.false_eq_true, if_false, List.any_cons, hep,
          Bool.false_or, ih]
      · have hkeep : (!(e.1 == q)) = true := by
          have : (e.1 == q) = false := by rw [beq_eq_false_iff_ne]; exact he
          rw [this]; rfl
        rw [hkeep]
        simp only [if_true, List.any_cons, ih]

lemma fsExists_fsPut_self (fs : FS) (p : String) (n : Nat) :
    fsExists (fsPut fs p n) p = true := by
  simp [fsExists, fsPut]

lemma fsExists_fsPut_ne (fs : FS) (p q : String) (n : Nat) (h : p ≠ q) :
    fsExists (fsPut fs q n) p = fsExists fs p := by
  have hqp : (q == p) = false := by
    rw [beq_eq_false_iff_ne]; exact fun hq => h hq.symm
  show ((q, n) :: fsErase fs q).any (fun e => e.1 == p) = fsExists fs p
  rw [List.any_cons]
  show ((q == p) || _) = _
  rw [hqp, Bool.false_or]
  exact fsExists_fsErase_ne fs p q h

lemma fsGetsize_fsPut (fs : FS) (p : String) (n : Nat) :
    fsGetsize (fsPut fs p n) p = n := by
  simp [fsGetsize, fsPut, List.find?_cons_of_pos]

lemma cleanup_handle_exists (fs : FS) (p : String) (h : fsExists fs p = true) :
    cleanup_handle fs p = (fsErase fs p, [Effect.cleanupAttempt p]) := by
  simp [cleanup_handle, cleanup_step, os_remove, h]

lemma send_media_file_ok (fs : FS) (fp : String) (bytes : Nat)
    (r : DMOutcome) (mt : String) (h : fsExists fs fp = true) :
    send_media_file fs true fp bytes r mt =
      ([Effect.sendMedia fp mt (buildCaption r bytes), Effect.deleteStatus],
        none) := by
  simp [send_media_file, h]

lemma send_media_file_fail (fs : FS) (fp : String) (bytes : Nat)
    (r : DMOutcome) (mt : String) (h : fsExists fs fp = true) :
    send_media_file fs false fp bytes r mt =
      ([Effect.sendMedia fp mt (buildCaption r bytes)], some "Timed out") := by
  simp [send_media_file, h]

/-- The pending record handle_message stores for a mid-range file. -/
def pendingOf (mt : String) (di : DlInfo) : PendingFile :=
  { filepath := finalFilename mt di, file_size_bytes := di.fileBytes,
    result := dmSuccess mt di, media_type := mt }

/-- The three status effects handle_message has emitted by the time the
size branch runs on the successful-download path. -/
def hmEff1 (inp : HMInput) (st : ConvState) : List Effect :=
  [.statusMsg (msgProcessing (st.media_type.getD "video") inp.url (st.quality.getD "best")),
   .chatAction (if st.media_type.getD "video" = "video" then "UPLOAD_VIDEO" else "UPLOAD_AUDIO"),
   .editStatus "Download complete! Uploading to Telegram..."]

lemma download_media_success (maxMB : Nat) (mt : String)
    (eng : EngineBehavior) (pi : ProbeInfo) (di : DlInfo)
    (hprobe : eng.probe = Except.ok pi)
    (hest : effFilesize pi ≤ maxMB * MB)
    (hdl : eng.download = Except.ok di) :
    download_media maxMB mt eng =
      DMRun.succeeded (dmSuccess mt di) (finalFilename mt di) di.fileBytes := by
  unfold download_media
  rw [hprobe, hdl]
  simp [Nat.not_lt.mpr hest]

lemma handle_message_tooLarge (inp : HMInput) (st : ConvState) (fs : FS)
    (pi : ProbeInfo) (di : DlInfo)
    (hauth : authRejected inp.allowedUsersEnv inp.senderId = false)
    (hurl : inp.urlFound = true) (hvalid : inp.urlValid = true)
    (hprobe : inp.engine.probe = Except.ok pi)
    (hest : effFilesize pi ≤ inp.maxFileSizeMB * MB)
    (hdl : inp.engine.download = Except.ok di)
    (hbig : di.fileBytes > PREMIUM_USER_LIMIT_MB * MB) :
    handle_message inp st fs =
      (.tooLarge, st,
        fsErase (fsPut fs (finalFilename (st.media_type.getD "video") di) di.fileBytes)
          (finalFilename (st.media_type.getD "video") di),
        hmEff1 inp st ++
          [.editStatus (msgTooLarge di.fileBytes),
           .cleanupAttempt (finalFilename (st.media_type.getD "video") di)]) := by
  have hdm := download_media_success inp.maxFileSizeMB (st.media_type.getD "video")
    inp.engine pi di hprobe hest hdl
  unfold handle_message
  rw [hauth, hurl, hvalid]
  simp only [Bool.false_eq_true, if_false, Bool.not_true, Bool.not_false, if_true]
  rw [hdm]
  simp [sizeBranch, assembleBranch, fsGetsize_fsPut, if_pos hbig,
    cleanup_handle_exists _ _ (fsExists_fsPut_self fs _ di.fileBytes),
    hmEff1]

lemma handle_message_pending (inp : HMInput) (st : ConvState) (fs : FS)
    (pi : ProbeInfo) (di : DlInfo)
    (hauth : authRejected inp.allowedUsersEnv inp.senderId = false)
    (hurl : inp.urlFound = true) (hvalid : inp.urlValid = true)
    (hprobe : inp.engine.probe = Except.ok pi)
    (hest : effFilesize pi ≤ inp.maxFileSizeMB * MB)
    (hdl : inp.engine.download = Except.ok di)
    (hmid1 : REGULAR_USER_LIMIT_MB * MB < di.fileBytes)
    (hmid2 : di.fileBytes ≤ PREMIUM_USER_LIMIT_MB * MB)
    (hflag : st.has_premium.getD false = false) :
    handle_message inp st fs =
      (.pendingStored,
        { st with pending_file := some (pendingOf (st.media_type.getD "video") di) },
        fsPut fs (finalFilename (st.media_type.getD "video") di) di.fileBytes,
        hmEff1 inp st ++
          [.premiumPrompt (msgLargeFile di.fileBytes)
            (premiumYesPayload inp.url (st.quality.getD "best") (st.media_type.getD "video"))
            "premium_no"]) := by
  have hdm := download_media_success inp.maxFileSizeMB (st.media_type.getD "video")
    inp.engine pi di hprobe hest hdl
  unfold handle_message
  rw [hauth, hurl, hvalid]
  simp only [Bool.false_eq_true, if_false, Bool.not_true, Bool.not_false, if_true]
  rw [hdm]
  simp [sizeBranch, assembleBranch, fsGetsize_fsPut,
    if_neg (Nat.not_lt.mpr hmid2), if_pos hmid1, hflag, hmEff1, pendingOf]

lemma handle_message_send_ok (inp : HMInput) (st : ConvState) (fs : FS)
    (pi : ProbeInfo) (di : DlInfo)
    (hauth : authRejected inp.allowedUsersEnv inp.senderId = false)
    (hurl : inp.urlFound = true) (hvalid : inp.urlValid = true)
    (hprobe : inp.engine.probe = Except.ok pi)
    (hest : effFilesize pi ≤ inp.maxFileSizeMB * MB)
    (hdl : inp.engine.download = Except.ok di)
    (hsite : di.fileBytes ≤ REGULAR_USER_LIMIT_MB * MB ∨
      (REGULAR_USER_LIMIT_MB * MB < di.fileBytes ∧
        di.fileBytes ≤ PREMIUM_USER_LIMIT_MB * MB ∧
        st.has_premium.getD false = true))
    (hsend : inp.sendOk = true) :
    handle_message inp st fs =
      (.delivered, st,
        fsErase (fsPut fs (finalFilename (st.media_type.getD "video") di) di.fileBytes)
          (finalFilename (st.media_type.getD "video") di),
        hmEff1 inp st ++
          [.sendMedia (finalFilename (st.media_type.getD "video") di)
              (st.media_type.getD "video")
              (buildCaption (dmSuccess (st.media_type.getD "video") di) di.fileBytes),
           .deleteStatus,
           .cleanupAttempt (finalFilename (st.media_type.getD "video") di)]) := by
  have hdm := download_media_success inp.maxFileSizeMB (st.media_type.getD "video")
    inp.engine pi di hprobe hest hdl
  have hfs1 := fsExists_fsPut_self fs (finalFilename (st.media_type.getD "video") di) di.fileBytes
  unfold handle_message
  rw [hauth, hurl, hvalid]
  simp only [Bool.false_eq_true, if_false, Bool.not_true, Bool.not_false, if_true]
  rw [hdm]
  rcases hsite with hle | ⟨hmid1, hmid2, hflag⟩
  · have hnp : ¬ di.fileBytes > PREMIUM_USER_LIMIT_MB * MB := by
      unfold REGULAR_USER_LIMIT_MB at hle
      unfold PREMIUM_USER_LIMIT_MB
      omega
    have hnr : ¬ di.fileBytes > REGULAR_USER_LIMIT_MB * MB := Nat.not_lt.mpr hle
    simp [sizeBranch, assembleBranch, fsGetsize_fsPut, if_neg hnp, if_neg hnr,
      hsend, send_media_file_ok _ _ _ _ _ hfs1,
      cleanup_handle_exists _ _ hfs1, hmEff1]
  · simp [sizeBranch, assembleBranch, fsGetsize_fsPut,
      if_neg (Nat.not_lt.mpr hmid2), if_pos hmid1, hflag,
      hsend, send_media_file_ok _ _ _ _ _ hfs1,
      cleanup_handle_exists _ _ hfs1, hmEff1]

lemma handle_message_send_fail (inp : HMInput) (st : ConvState) (fs : FS)
    (pi : ProbeInfo) (di : DlInfo)
    (hauth : authRejected inp.allowedUsersEnv inp.senderId = false)
    (hurl : inp.urlFound = true) (hvalid : inp.urlValid = true)
    (hprobe : inp.engine.probe = Except.ok pi)
    (hest : effFilesize pi ≤ inp.maxFileSizeMB * MB)
    (hdl : inp.engine.download = Except.ok di)
    (hsite : di.fileBytes ≤ REGULAR_USER_LIMIT_MB * MB ∨
      (REGULAR_USER_LIMIT_MB * MB < di.fileBytes ∧
        di.fileBytes ≤ PREMIUM_USER_LIMIT_MB * MB ∧
        st.has_premium.getD false = true))
    (hsend : inp.sendOk = false) :
    handle_message inp st fs =
      (.errorCaught "Timed out", st,
        fsPut fs (finalFilename (st.media_type.getD "video") di) di.fileBytes,
        hmEff1 inp st ++
          [.sendMedia (finalFilename (st.media_type.getD "video") di)
              (st.media_type.getD "video")
              (buildCaption (dmSuccess (st.media_type.getD "video") di) di.fileBytes),
           .editStatus (msgErrorOccurred "Timed out")]) := by
  have hdm := download_media_success inp.maxFileSizeMB (st.media_type.getD "video")
    inp.engine pi di hprobe hest hdl
  have hfs1 := fsExists_fsPut_self fs (finalFilename (st.media_type.getD "video") di) di.fileBytes
  unfold handle_message
  rw [hauth, hurl, hvalid]
  simp only [Bool.false_eq_true, if_false, Bool.not_true, Bool.not_false, if_true]
  rw [hdm]
  rcases hsite with hle | ⟨hmid1, hmid2, hflag⟩
  · have hnp : ¬ di.fileBytes > PREMIUM_USER_LIMIT_MB * MB := by
      unfold REGULAR_USER_LIMIT_MB at hle
      unfold PREMIUM_USER_LIMIT_MB
      omega
    have hnr : ¬ di.fileBytes > REGULAR_USER_LIMIT_MB * MB := Nat.not_lt.mpr hle
    simp [sizeBranch, assembleBranch, fsGetsize_fsPut, if_neg hnp, if_neg hnr,
      hsend, send_media_file_fail _ _ _ _ _ hfs1, hmEff1]
  · simp [sizeBranch, assembleBranch, fsGetsize_fsPut,
      if_neg (Nat.not_lt.mpr hmid2), if_pos hmid1, hflag,
      hsend, send_media_file_fail _ _ _ _ _ hfs1, hmEff1]

lemma sizeBranch_assemble_ne_unauthorized (sendOk : Bool) (st : ConvState)
    (url quality mt : String) (fs1 : FS) (fp : String) (fsize : Nat)
    (result : DMOutcome) (eff1 : List Effect) :
    (assembleBranch st fs1 fp eff1
      (sizeBranch sendOk st url quality mt fs1 fp fsize result)).1 ≠
      HMOutcome.unauthorized := by
  unfold sizeBranch
  repeat' split
  all_goals simp [assembleBranch]

lemma hm_not_unauthorized (inp : HMInput) (st : ConvState) (fs : FS)
    (hgate : authRejected inp.allowedUsersEnv inp.senderId = false) :
    (handle_message inp st fs).1 ≠ HMOutcome.unauthorized := by
  unfold handle_message
  rw [hgate]
  simp only [Bool.false_eq_true, if_false]
  split
  · simp
  · split
    · simp
    · split
      · simp
      · apply sizeBranch_assemble_ne_unauthorized

/- ## Claim theorems -/

/-- Claim C5: whenever the pre-download probe reports an estimated size
strictly greater than the configured maximum (in bytes, `maxMB * MB`, which
is exactly the float comparison `size_mb > MAX_FILE_SIZE_MB` of the
source), download_media returns success=false with the descriptive size
error, and the engine download step is never invoked. -/
theorem C5_preflight_size_rejection (maxMB : Nat) (media_type : String)
    (eng : EngineBehavior) (pi : ProbeInfo)
    (hprobe : eng.probe = Except.ok pi)
    (hsize : effFilesize pi > maxMB * MB) :
    (download_media maxMB media_type eng).outcome.success = false ∧
    (download_media maxMB media_type eng).outcome.error =
      some (sizeErrorMsg (effFilesize pi) maxMB) ∧
    (download_media maxMB media_type eng).invoked = false := by
  unfold download_media
  rw [hprobe]
  simp [hsize, DMRun.outcome, DMRun.invoked]

/-- Witness for C5 at the spec scenario: an estimated 3000MB resource
against the default 2048MB ceiling is rejected without invoking the
download step. -/
theorem C5_preflight_size_rejection_witness :
    effFilesize ⟨some (3000 * MB), 0⟩ > 2048 * MB ∧
    (download_media 2048 "video"
      ⟨Except.ok ⟨some (3000 * MB), 0⟩, Except.error "never"⟩).outcome.success = false ∧
    (download_media 2048 "video"
      ⟨Except.ok ⟨some (3000 * MB), 0⟩, Except.error "never"⟩).invoked = false :=
  ⟨by decide,
   (C5_preflight_size_rejection 2048 "video" _ _ rfl (by decide)).1,
   (C5_preflight_size_rejection 2048 "video" _ _ rfl (by decide)).2.2⟩

/-- Claim C6: whenever the extraction engine raises — in the metadata probe
or in the download step proper — download_media catches it and returns the
dictionary with success=false and error = the raised message; being a total
function into DMRun, it never propagates the exception to its caller. -/
theorem C6_engine_exception_caught (maxMB : Nat) (media_type : String)
    (eng : EngineBehavior) (msg : String) :
    (eng.probe = Except.error msg →
      download_media maxMB media_type eng =
        DMRun.failed { success := false, error := some msg } false) ∧
    (∀ pi, eng.probe = Except.ok pi → effFilesize pi ≤ maxMB * MB →
      eng.download = Except.error msg →
      download_media maxMB media_type eng =
        DMRun.failed { success := false, error := some msg } true) := by
  constructor
  · intro h
    unfold download_media
    rw [h]
  · intro pi hp hle hd
    unfold download_media
    rw [hp, hd]
    simp [Nat.not_lt.mpr hle]

/-- Witness for C6: a probe-time failure and a download-time failure both
surface as success=false with the exception message. -/
theorem C6_engine_exception_caught_witness :
    (download_media 2048 "video"
      ⟨Except.error "HTTP Error 403: Forbidden", Except.ok
        ⟨"downloads/v.mp4", "T", "U", 10, "d", MB⟩⟩ =
      DMRun.failed { success := false, error := some "HTTP Error 403: Forbidden" } false) ∧
    (download_media 2048 "video"
      ⟨Except.ok ⟨some MB, 0⟩, Except.error "Video unavailable"⟩ =
      DMRun.failed { success := false, error := some "Video unavailable" } true) :=
  ⟨(C6_engine_exception_caught 2048 "video" _ "HTTP Error 403: Forbidden").1 rfl,
   (C6_engine_exception_caught 2048 "video" _ "Video unavailable").2
     ⟨some MB, 0⟩ rfl (by decide) rfl⟩

/-- Claim C8: the guarded cleanup step never raises — for every filesystem
and path it returns normally, and invoking it again after the file has been
removed (the file no longer exists) again returns normally with the
filesystem unchanged. -/
theorem C8_cleanup_idempotent (fs : FS) (p : String) :
    ∃ fs2, cleanup_step fs p = Except.ok fs2 ∧
      fsExists fs2 p = false ∧
      cleanup_step fs2 p = Except.ok fs2 := by
  by_cases h : fsExists fs p = true
  · refine ⟨fsErase fs p, ?_, ?_, ?_⟩
    · simp [cleanup_step, os_remove, h]
    · exact fsExists_fsErase fs p
    · simp [cleanup_step, fsExists_fsErase fs p]
  · have h' : fsExists fs p = false := by
      cases hx : fsExists fs p
      · rfl
      · exact absurd hx h
    exact ⟨fs, by simp [cleanup_step, h'], h', by simp [cleanup_step, h']⟩

/-- Claim C10: a `premium_no` callback arriving while the conversation has
no pending-file record raises (the rejection message dereferences the
absent record), instead of replying gracefully. -/
theorem C10_premium_no_missing_pending_raises (env sender : String)
    (sendOk : Bool) (st : ConvState) (fs : FS)
    (h : st.pending_file = none) :
    button_callback env sender sendOk "premium_no" st fs =
      Except.error "TypeError: NoneType object is not subscriptable" := by
  have h1 : pyStartsWith "premium_no" "quality_" = false := by decide
  have h2 : pyStartsWith "premium_no" "premium_" = true := by decide
  simp [button_callback, h1, h2, h]

/-- Witness for C10: a fresh conversation state has no pending record, and
the handler raises on premium_no. -/
theorem C10_premium_no_missing_pending_raises_witness :
    ({} : ConvState).pending_file = none ∧
    button_callback "" "u1" true "premium_no" {} [] =
      Except.error "TypeError: NoneType object is not subscriptable" :=
  ⟨rfl, C10_premium_no_missing_pending_raises "" "u1" true {} [] rfl⟩

/-- Claim C9: the allow-list is enforced only in the free-text handler —
every command handler and the button-callback handler perform their full
effect for any sender, even one absent from a configured allow-list: their
results are independent of sender and configuration, /audio and /video
perform their preference mutation, and a quality button press performs its
full effect. -/
theorem C9_commands_and_callbacks_bypass_allowlist
    (env sender : String) (sendOk : Bool) (data : String)
    (st : ConvState) (fs : FS)
    (hconf : (ALLOWED_USERS env).headD "" ≠ "")
    (habs : (ALLOWED_USERS env).contains sender = false) :
    start_command env sender st = start_command "" "anyone" st ∧
    help_command env sender st = help_command "" "anyone" st ∧
    quality_command env sender st = quality_command "" "anyone" st ∧
    (audio_command env sender st).1.media_type = some "audio" ∧
    (video_command env sender st).1.media_type = some "video" ∧
    button_callback env sender sendOk data st fs =
      button_callback "" "anyone" sendOk data st fs ∧
    button_callback env sender sendOk "quality_720p" st fs =
      Except.ok ({ st with quality := some "720p" }, fs,
        [Effect.answerQuery,
         Effect.editStatus "Quality set to: 720p - Now send me a video link!"]) := by
  refine ⟨rfl, rfl, rfl, rfl, rfl, rfl, ?_⟩
  have h1 : pyStartsWith "quality_720p" "quality_" = true := by decide
  have h2 : pyReplace "quality_720p" "quality_" "" = "720p" := by decide
  simp [button_callback, h1, h2]

/-- Witness for C9 at a configured allow-list lacking the sender. -/
theorem C9_commands_and_callbacks_bypass_allowlist_witness :
    (ALLOWED_USERS "111").headD "" ≠ "" ∧
    (ALLOWED_USERS "111").contains "222" = false ∧
    button_callback "111" "222" true "quality_720p" {} [] =
      Except.ok ({ quality := some "720p" }, [],
        [Effect.answerQuery,
         Effect.editStatus "Quality set to: 720p - Now send me a video link!"]) :=
  ⟨by decide, by decide,
   (C9_commands_and_callbacks_bypass_allowlist "111" "222" true "x" {} []
     (by decide) (by decide)).2.2.2.2.2.2⟩

/-- Claim C2 (code bug): the I-have-Premium button that handle_message
creates carries the payload premium_yes|url|quality|media_type, but
button_callback compares query.data against the exact string premium_yes —
so pressing the button matches neither equality sub-branch and performs
nothing beyond answering the query: no delivery, no file removal, no record
clearing.  The third conjunct evaluates the (unreachable from that button)
exact-match branch, which is the intended deliver-then-clean behaviour. -/
theorem C2_premium_yes_button_never_matches :
    premiumYesPayload "https://example.com/v" "best" "video" =
      "premium_yes|https://example.com/v|best|video" ∧
    button_callback "" "u1" true
        (premiumYesPayload "https://example.com/v" "best" "video")
        ⟨none, none, none,
          some ⟨"downloads/v.mp4", 120 * MB,
            dmSuccess "video" ⟨"downloads/v.mp4", "T", "U", 125, "d", 120 * MB⟩,
            "video"⟩⟩
        [("downloads/v.mp4", 120 * MB)] =
      Except.ok
        (⟨none, none, none,
          some ⟨"downloads/v.mp4", 120 * MB,
            dmSuccess "video" ⟨"downloads/v.mp4", "T", "U", 125, "d", 120 * MB⟩,
            "video"⟩⟩,
         [("downloads/v.mp4", 120 * MB)], [Effect.answerQuery]) ∧
    button_callback "" "u1" true "premium_yes"
        ⟨none, none, none,
          some ⟨"downloads/v.mp4", 120 * MB,
            dmSuccess "video" ⟨"downloads/v.mp4", "T", "U", 125, "d", 120 * MB⟩,
            "video"⟩⟩
        [("downloads/v.mp4", 120 * MB)] =
      Except.ok
        (⟨none, none, some true, none⟩, [],
         [Effect.answerQuery, Effect.editStatus "Uploading your file...",
          Effect.sendMedia "downloads/v.mp4" "video"
            (buildCaption
              (dmSuccess "video" ⟨"downloads/v.mp4", "T", "U", 125, "d", 120 * MB⟩)
              (120 * MB)),
          Effect.deleteStatus]) :=
  ⟨rfl, rfl, rfl⟩

/-- Counterexample to C7 as stated: the environment value ",111" configures
a non-empty allow-list that does not contain sender "222", yet the handler
does not reply unauthorized — the gate only tests the first comma-split
entry, which is empty here, so the message is processed (it reaches URL
extraction and reports no-URL). -/
theorem C7_counterexample_first_entry_empty :
    ALLOWED_USERS ",111" = ["", "111"] ∧
    "222" ∉ ALLOWED_USERS ",111" ∧
    (handle_message ⟨",111", "222", false, "", false, 2048,
        ⟨Except.error "e", Except.error "e"⟩, true⟩ {} []).1 = HMOutcome.noUrl := by
  exact ⟨by decide, by decide, by decide⟩

/-- Amended C7: the gate fires exactly when the FIRST comma-split entry of
the allow-list is non-empty and the sender is absent from the parsed list —
then the handler replies unauthorized and stops before any URL processing;
whenever the first entry is empty (unset, empty, or leading-comma
configuration) no sender is ever rejected. -/
theorem C7_allowlist_gate_first_entry (inp : HMInput) (st : ConvState) (fs : FS) :
    ((ALLOWED_USERS inp.allowedUsersEnv).headD "" ≠ "" →
      (ALLOWED_USERS inp.allowedUsersEnv).contains inp.senderId = false →
      handle_message inp st fs =
        (.unauthorized, st, fs,
          [.replyText "You are not authorized to use this bot."])) ∧
    ((ALLOWED_USERS inp.allowedUsersEnv).headD "" = "" →
      (handle_message inp st fs).1 ≠ HMOutcome.unauthorized) := by
  constructor
  · intro hhead habs
    have hne := ALLOWED_USERS_ne_nil inp.allowedUsersEnv
    have hempty : (ALLOWED_USERS inp.allowedUsersEnv).isEmpty = false := by
      cases hl : ALLOWED_USERS inp.allowedUsersEnv
      · exact absurd hl hne
      · rfl
    have hgate : authRejected inp.allowedUsersEnv inp.senderId = true := by
      unfold authRejected
      rw [hempty, habs]
      simp only [Bool.not_false, Bool.true_and, Bool.and_true, bne_iff_ne]
      simpa using hhead
    unfold handle_message
    rw [hgate]
    rfl
  · intro hhead
    have hgate : authRejected inp.allowedUsersEnv inp.senderId = false := by
      unfold authRejected
      rw [hhead]
      simp
    exact hm_not_unauthorized inp st fs hgate

/-- Witness for the amended C7: env "111" rejects sender "222", while env
",111" (configured, first entry empty) lets the same sender through. -/
theorem C7_allowlist_gate_first_entry_witness :
    (handle_message ⟨"111", "222", false, "", false, 2048,
        ⟨Except.error "e", Except.error "e"⟩, true⟩ {} [] =
      (HMOutcome.unauthorized, {}, [],
        [Effect.replyText "You are not authorized to use this bot."])) ∧
    (handle_message ⟨",111", "222", false, "", false, 2048,
        ⟨Except.error "e", Except.error "e"⟩, true⟩ {} []).1 ≠
      HMOutcome.unauthorized :=
  ⟨(C7_allowlist_gate_first_entry
      ⟨"111", "222", false, "", false, 2048,
        ⟨Except.error "e", Except.error "e"⟩, true⟩ {} []).1 (by decide) (by decide),
   (C7_allowlist_gate_first_entry
      ⟨",111", "222", false, "", false, 2048,
        ⟨Except.error "e", Except.error "e"⟩, true⟩ {} []).2 (by decide)⟩

/-- Concrete second-download engine result used in the C4 scenario. -/
def diB : DlInfo := ⟨"downloads/b.mp4", "B", "U", 10, "d", 200 * MB⟩

/-- Concrete probe for the C4 scenario. -/
def piB : ProbeInfo := ⟨some (200 * MB), 0⟩

/-- The unresolved prior pending record of the C4 scenario. -/
def pendA : PendingFile :=
  ⟨"downloads/a.mp4", 120 * MB,
    dmSuccess "video" ⟨"downloads/a.mp4", "A", "U", 9, "d", 120 * MB⟩, "video"⟩

/-- Conversation state holding the prior pending record. -/
def stA : ConvState := ⟨none, none, none, some pendA⟩

/-- The second large request of the C4 scenario. -/
def inpB : HMInput :=
  ⟨"", "u2", true, "https://example.com/b", true, 2048,
    ⟨Except.ok piB, Except.ok diB⟩, true⟩

/-- Filesystem still holding the prior pending temp file. -/
def fsA : FS := [("downloads/a.mp4", 120 * MB)]

/-- Concrete 10MB download used in the C3 and C1 scenarios. -/
def diV : DlInfo := ⟨"downloads/v.mp4", "T", "U", 10, "d", 10 * MB⟩

/-- Concrete probe for the C3 scenario. -/
def piV : ProbeInfo := ⟨some (9 * MB), 0⟩

/-- A request whose transport send fails. -/
def inpVfail : HMInput :=
  ⟨"", "u3", true, "https://example.com/v", true, 2048,
    ⟨Except.ok piV, Except.ok diV⟩, false⟩

/-- Concrete 120MB download used in the C1 witness. -/
def di120 : DlInfo := ⟨"downloads/v.mp4", "T", "U", 10, "d", 120 * MB⟩

/-- Concrete probe for the C1 witness. -/
def pi119 : ProbeInfo := ⟨some (119 * MB), 0⟩

/-- The C1 witness request (everything succeeds, flag unset). -/
def inp120 : HMInput :=
  ⟨"", "u4", true, "https://example.com/v", true, 2048,
    ⟨Except.ok pi119, Except.ok di120⟩, true⟩

/-- Counterexample to C4 as stated: with an unresolved pending record for
downloads/a.mp4 on disk, a second large download (downloads/b.mp4, 200MB,
premium flag unset) overwrites the pending slot WITHOUT deleting the prior
temp file: afterwards the new record points at b.mp4 while a.mp4 is still
on disk and no removal of it was ever attempted — the prior file is leaked,
refuting deleted-before-overwrite. -/
theorem C4_counterexample_overwrite_leaks :
    (let r := handle_message
        ⟨"", "u1", true, "https://example.com/b", true, 2048,
          ⟨Except.ok ⟨some (200 * MB), 0⟩,
           Except.ok ⟨"downloads/b.mp4", "B", "U", 10, "d", 200 * MB⟩⟩, true⟩
        ⟨none, none, none,
          some ⟨"downloads/a.mp4", 120 * MB,
            dmSuccess "video" ⟨"downloads/a.mp4", "A", "U", 9, "d", 120 * MB⟩,
            "video"⟩⟩
        [("downloads/a.mp4", 120 * MB)]
     r.1 = HMOutcome.pendingStored ∧
     r.2.1.pending_file.map PendingFile.filepath = some "downloads/b.mp4" ∧
     fsExists r.2.2.1 "downloads/a.mp4" = true ∧
     Effect.cleanupAttempt "downloads/a.mp4" ∉ r.2.2.2) := by
  decide

/-- Amended C4: when a second large download completes while a pending
record for a different file is unresolved, the pending slot is overwritten
WITHOUT deleting the prior temporary file — the prior file remains on disk
with no removal attempted and no record pointing at it, so
deleted-exactly-once fails across the overwrite (the file is leaked). -/
theorem C4_pending_overwrite_leaks_prior_file (inp : HMInput)
    (st : ConvState) (fs : FS) (pi : ProbeInfo) (di : DlInfo)
    (p0 : PendingFile)
    (hauth : authRejected inp.allowedUsersEnv inp.senderId = false)
    (hurl : inp.urlFound = true) (hvalid : inp.urlValid = true)
    (hprobe : inp.engine.probe = Except.ok pi)
    (hest : effFilesize pi ≤ inp.maxFileSizeMB * MB)
    (hdl : inp.engine.download = Except.ok di)
    (hpend : st.pending_file = some p0)
    (hmid1 : REGULAR_USER_LIMIT_MB * MB < di.fileBytes)
    (hmid2 : di.fileBytes ≤ PREMIUM_USER_LIMIT_MB * MB)
    (hflag : st.has_premium.getD false = false)
    (hne : p0.filepath ≠ finalFilename (st.media_type.getD "video") di)
    (hex : fsExists fs p0.filepath = true) :
    (handle_message inp st fs).1 = HMOutcome.pendingStored ∧
    (handle_message inp st fs).2.1.pending_file =
      some (pendingOf (st.media_type.getD "video") di) ∧
    fsExists (handle_message inp st fs).2.2.1 p0.filepath = true ∧
    Effect.cleanupAttempt p0.filepath ∉ (handle_message inp st fs).2.2.2 := by
  have h := handle_message_pending inp st fs pi di hauth hurl hvalid hprobe
    hest hdl hmid1 hmid2 hflag
  rw [h]
  refine ⟨rfl, rfl, ?_, ?_⟩
  · rw [fsExists_fsPut_ne _ _ _ _ hne]
    exact hex
  · simp [hmEff1]

/-- Witness for the amended C4 at the overwrite scenario. -/
theorem C4_pending_overwrite_leaks_prior_file_witness :
    (handle_message inpB stA fsA).1 = HMOutcome.pendingStored ∧
    (handle_message inpB stA fsA).2.1.pending_file =
      some (pendingOf "video" diB) ∧
    fsExists (handle_message inpB stA fsA).2.2.1 "downloads/a.mp4" = true ∧
    Effect.cleanupAttempt "downloads/a.mp4" ∉
      (handle_message inpB stA fsA).2.2.2 :=
  C4_pending_overwrite_leaks_prior_file inpB stA fsA piB diB pendA
    (by decide) (by rfl) (by rfl) (by rfl) (by decide) (by rfl) (by rfl)
    (by decide) (by decide) (by rfl) (by decide) (by decide)

/-- Counterexample to C3 as stated: for a successfully downloaded 10MB file
whose transport send fails, the outer except handler reports the error but
removal of the temp file is NOT attempted — the send was attempted, the
trace holds no cleanup attempt, and the file is still on disk afterwards. -/
theorem C3_counterexample_send_failure_skips_cleanup :
    Effect.sendMedia "downloads/v.mp4" "video"
        (buildCaption (dmSuccess "video" diV) (10 * MB)) ∈
      (handle_message inpVfail {} []).2.2.2 ∧
    (handle_message inpVfail {} []).1 = HMOutcome.errorCaught "Timed out" ∧
    Effect.cleanupAttempt "downloads/v.mp4" ∉
      (handle_message inpVfail {} []).2.2.2 ∧
    fsExists (handle_message inpVfail {} []).2.2.1 "downloads/v.mp4" = true := by
  have h := handle_message_send_fail inpVfail {} [] piV diV
    (by decide) rfl rfl rfl (by decide) rfl (Or.inl (by decide)) rfl
  rw [h]
  refine ⟨?_, rfl, ?_, ?_⟩
  · exact List.mem_cons_of_mem _ (List.mem_cons_of_mem _
      (List.mem_cons_of_mem _ (List.mem_cons_self _ _)))
  · simp [hmEff1]
  · exact fsExists_fsPut_self [] _ diV.fileBytes

/-- Amended C3: for a successfully downloaded file, removal of the temp
file is attempted on the size-rejection exit and on every
delivery-success exit, and the handler returns normally there (an OS
removal failure inside the cleanup block is caught and logged by
cleanup_handle, never escalated); but on a transport send failure the
outer exception handler reports the error to the user WITHOUT attempting
removal, and the temp file remains on disk. -/
theorem C3_cleanup_per_exit_path (inp : HMInput) (st : ConvState) (fs : FS)
    (pi : ProbeInfo) (di : DlInfo)
    (hauth : authRejected inp.allowedUsersEnv inp.senderId = false)
    (hurl : inp.urlFound = true) (hvalid : inp.urlValid = true)
    (hprobe : inp.engine.probe = Except.ok pi)
    (hest : effFilesize pi ≤ inp.maxFileSizeMB * MB)
    (hdl : inp.engine.download = Except.ok di) :
    (di.fileBytes > PREMIUM_USER_LIMIT_MB * MB →
       (handle_message inp st fs).1 = HMOutcome.tooLarge ∧
       Effect.cleanupAttempt (finalFilename (st.media_type.getD "video") di) ∈
         (handle_message inp st fs).2.2.2) ∧
    (inp.sendOk = true →
     (di.fileBytes ≤ REGULAR_USER_LIMIT_MB * MB ∨
       (REGULAR_USER_LIMIT_MB * MB < di.fileBytes ∧
        di.fileBytes ≤ PREMIUM_USER_LIMIT_MB * MB ∧
        st.has_premium.getD false = true)) →
       (handle_message inp st fs).1 = HMOutcome.delivered ∧
       Effect.cleanupAttempt (finalFilename (st.media_type.getD "video") di) ∈
         (handle_message inp st fs).2.2.2) ∧
    (inp.sendOk = false →
     (di.fileBytes ≤ REGULAR_USER_LIMIT_MB * MB ∨
       (REGULAR_USER_LIMIT_MB * MB < di.fileBytes ∧
        di.fileBytes ≤ PREMIUM_USER_LIMIT_MB * MB ∧
        st.has_premium.getD false = true)) →
       (handle_message inp st fs).1 = HMOutcome.errorCaught "Timed out" ∧
       Effect.cleanupAttempt (finalFilename (st.media_type.getD "video") di) ∉
         (handle_message inp st fs).2.2.2 ∧
       fsExists (handle_message inp st fs).2.2.1
         (finalFilename (st.media_type.getD "video") di) = true) := by
  refine ⟨?_, ?_, ?_⟩
  · intro hbig
    rw [handle_message_tooLarge inp st fs pi di hauth hurl hvalid hprobe hest hdl hbig]
    refine ⟨rfl, ?_⟩
    simp [hmEff1]
  · intro hsend hsite
    rw [handle_message_send_ok inp st fs pi di hauth hurl hvalid hprobe hest hdl hsite hsend]
    refine ⟨rfl, ?_⟩
    simp [hmEff1]
  · intro hsend hsite
    rw [handle_message_send_fail inp st fs pi di hauth hurl hvalid hprobe hest hdl hsite hsend]
    refine ⟨rfl, ?_, ?_⟩
    · simp [hmEff1]
    · exact fsExists_fsPut_self fs _ di.fileBytes

/-- Witness for the amended C3: the transport-failure path of a 10MB
download leaves the file on disk with no cleanup attempt. -/
theorem C3_cleanup_per_exit_path_witness :
    (handle_message inpVfail {} []).1 = HMOutcome.errorCaught "Timed out" ∧
    Effect.cleanupAttempt "downloads/v.mp4" ∉
      (handle_message inpVfail {} []).2.2.2 ∧
    fsExists (handle_message inpVfail {} []).2.2.1 "downloads/v.mp4" = true :=
  (C3_cleanup_per_exit_path inpVfail {} [] piV diV
    (by decide) (by rfl) (by rfl) (by rfl) (by decide) (by rfl)).2.2
    (by rfl) (Or.inl (by decide))

/-- Claim C1: for a successfully downloaded file the delivery decision is a
pure function of the measured size (in bytes; exactly the float MB
comparison) against the two thresholds and the conversation premium flag:
over the premium ceiling the request is rejected with no send attempt;
between the limits with the premium flag set the send is performed
immediately; between the limits with the flag unset a two-button premium
prompt is presented, no send happens, and the pending-file record is
stored; at or under the regular limit the send is performed immediately. -/
theorem C1_tier_policy_routing (inp : HMInput) (st : ConvState) (fs : FS)
    (pi : ProbeInfo) (di : DlInfo)
    (hauth : authRejected inp.allowedUsersEnv inp.senderId = false)
    (hurl : inp.urlFound = true) (hvalid : inp.urlValid = true)
    (hprobe : inp.engine.probe = Except.ok pi)
    (hest : effFilesize pi ≤ inp.maxFileSizeMB * MB)
    (hdl : inp.engine.download = Except.ok di) :
    (di.fileBytes > PREMIUM_USER_LIMIT_MB * MB →
       (handle_message inp st fs).1 = HMOutcome.tooLarge ∧
       ∀ p m c, Effect.sendMedia p m c ∉ (handle_message inp st fs).2.2.2) ∧
    (REGULAR_USER_LIMIT_MB * MB < di.fileBytes →
     di.fileBytes ≤ PREMIUM_USER_LIMIT_MB * MB →
     st.has_premium.getD false = true →
       (∃ c, Effect.sendMedia (finalFilename (st.media_type.getD "video") di)
           (st.media_type.getD "video") c ∈ (handle_message inp st fs).2.2.2) ∧
       ∀ m y n, Effect.premiumPrompt m y n ∉ (handle_message inp st fs).2.2.2) ∧
    (REGULAR_USER_LIMIT_MB * MB < di.fileBytes →
     di.fileBytes ≤ PREMIUM_USER_LIMIT_MB * MB →
     st.has_premium.getD false = false →
       (handle_message inp st fs).1 = HMOutcome.pendingStored ∧
       (handle_message inp st fs).2.1.pending_file =
         some (pendingOf (st.media_type.getD "video") di) ∧
       (∃ m, Effect.premiumPrompt m
           (premiumYesPayload inp.url (st.quality.getD "best") (st.media_type.getD "video"))
           "premium_no" ∈ (handle_message inp st fs).2.2.2) ∧
       ∀ p m c, Effect.sendMedia p m c ∉ (handle_message inp st fs).2.2.2) ∧
    (di.fileBytes ≤ REGULAR_USER_LIMIT_MB * MB →
       (∃ c, Effect.sendMedia (finalFilename (st.media_type.getD "video") di)
           (st.media_type.getD "video") c ∈ (handle_message inp st fs).2.2.2) ∧
       ∀ m y n, Effect.premiumPrompt m y n ∉ (handle_message inp st fs).2.2.2) := by
  refine ⟨?_, ?_, ?_, ?_⟩
  · intro hbig
    rw [handle_message_tooLarge inp st fs pi di hauth hurl hvalid hprobe hest hdl hbig]
    refine ⟨rfl, ?_⟩
    intro p m c
    simp [hmEff1]
  · intro hmid1 hmid2 hflag
    cases hs : inp.sendOk
    · rw [handle_message_send_fail inp st fs pi di hauth hurl hvalid hprobe hest hdl
        (Or.inr ⟨hmid1, hmid2, hflag⟩) hs]
      refine ⟨⟨buildCaption (dmSuccess (st.media_type.getD "video") di) di.fileBytes, ?_⟩, ?_⟩
      · simp [hmEff1]
      · intro m y n; simp [hmEff1]
    · rw [handle_message_send_ok inp st fs pi di hauth hurl hvalid hprobe hest hdl
        (Or.inr ⟨hmid1, hmid2, hflag⟩) hs]
      refine ⟨⟨buildCaption (dmSuccess (st.media_type.getD "video") di) di.fileBytes, ?_⟩, ?_⟩
      · simp [hmEff1]
      · intro m y n; simp [hmEff1]
  · intro hmid1 hmid2 hflag
    rw [handle_message_pending inp st fs pi di hauth hurl hvalid hprobe hest hdl
      hmid1 hmid2 hflag]
    refine ⟨rfl, rfl, ⟨msgLargeFile di.fileBytes, ?_⟩, ?_⟩
    · simp [hmEff1]
    · intro p m c; simp [hmEff1]
  · intro hle
    cases hs : inp.sendOk
    · rw [handle_message_send_fail inp st fs pi di hauth hurl hvalid hprobe hest hdl
        (Or.inl hle) hs]
      refine ⟨⟨buildCaption (dmSuccess (st.media_type.getD "video") di) di.fileBytes, ?_⟩, ?_⟩
      · simp [hmEff1]
      · intro m y n; simp [hmEff1]
    · rw [handle_message_send_ok inp st fs pi di hauth hurl hvalid hprobe hest hdl
        (Or.inl hle) hs]
      refine ⟨⟨buildCaption (dmSuccess (st.media_type.getD "video") di) di.fileBytes, ?_⟩, ?_⟩
      · simp [hmEff1]
      · intro m y n; simp [hmEff1]

/-- Witness for C1 at the spec scenario: a 120MB file with the premium flag
unset yields the pending confirmation flow with no send attempt. -/
theorem C1_tier_policy_routing_witness :
    (handle_message inp120 {} []).1 = HMOutcome.pendingStored ∧
    (handle_message inp120 {} []).2.1.pending_file =
      some (pendingOf "video" di120) ∧
    (∃ m, Effect.premiumPrompt m
        (premiumYesPayload "https://example.com/v" "best" "video") "premium_no" ∈
        (handle_message inp120 {} []).2.2.2) ∧
    ∀ p m c, Effect.sendMedia p m c ∉ (handle_message inp120 {} []).2.2.2 :=
  (C1_tier_policy_routing inp120 {} [] pi119 di120
    (by decide) (by rfl) (by rfl) (by rfl) (by decide) (by rfl)).2.2.1
    (by decide) (by decide) (by rfl)

end SarzBot
